import Mathlib

/-!
Verification development for the kernelshark-naps plugin.

Shallow embedding of the plugin's sources (src/naps.c, src/Naps.cpp,
src/NapRectangle.cpp, src/NapConfig.cpp).  External KernelShark host
state (the tep parser, the per-task color table, the visible-bin
histogram) is passed in as explicit arguments; machine integers are
modelled as Nat/Int with explicit truncation where the source converts
between widths.
-/

namespace Naps

/-! ## Host constants (libkshark.h, libkshark-plugin.h) -/

/-- Bit 0 of `kshark_entry.visible` (`kshark_filter_masks`). -/
def KS_TEXT_VIEW_FILTER_MASK : Nat := 1

/-- Bit 1 of `kshark_entry.visible`. -/
def KS_GRAPH_VIEW_FILTER_MASK : Nat := 2

/-- Bit 2 of `kshark_entry.visible`. -/
def KS_EVENT_VIEW_FILTER_MASK : Nat := 4

/-- Bit 7 of `kshark_entry.visible`, cleared by plugins that touch an entry. -/
def KS_PLUGIN_UNTOUCHED_MASK : Nat := 128

/-- Host draw-action flag for task plots, compared against `draw_action` in
`draw_nap_rectangles`.  Only its identity matters for the embedding. -/
def KSHARK_TASK_DRAW : Int := 2

/-- Synthetic event id of `couplebreak/sched_waking[target]` provided by the
couplebreak-enabled KernelShark host (libkshark-couplebreak.h, not part of
this plugin's sources).  Only its identity matters for the embedding. -/
def COUPLEBREAK_SWT_ID : Int := 20000

/-! ## Machine-integer conversions -/

/-- C cast to `uint8_t`: truncation mod 256. -/
def uint8_trunc (n : Nat) : Nat := n % 256

/-- C cast of an `unsigned long long` value to `int32_t`. -/
def toInt32 (v : Nat) : Int :=
  let m : Nat := v % 2 ^ 32
  if m < 2 ^ 31 then (m : Int) else (m : Int) - 2 ^ 32

/-- C conversion of an `unsigned long long` value to `int64_t`. -/
def toInt64 (v : Nat) : Int :=
  let m : Nat := v % 2 ^ 64
  if m < 2 ^ 63 then (m : Int) else (m : Int) - 2 ^ 64

/-! ## Data model -/

/-- `KsPlot::Color`: an RGB triple of `uint8_t` components. -/
structure Color where
  r : Nat
  g : Nat
  b : Nat
deriving DecidableEq, Repr

/-- A `kshark_entry` as far as the plugin reads or writes it: numeric event
kind, owning task id (`pid`), the visibility bitmask and the info payload. -/
structure KsharkEntry where
  event_id : Int
  pid : Int
  visible : Nat
  info : List Char
deriving DecidableEq, Repr

/-- A `kshark_data_field_int64` stored in the plugin's data container: a
(possibly null) entry reference plus an `int64_t` auxiliary field. -/
structure DataFieldInt64 where
  entry : Option KsharkEntry
  field : Int
deriving DecidableEq, Repr

/-- `struct plugin_naps_context` (naps.h): the collected-events container
(None models a null `kshark_data_container*`) and the two resolved event
ids.  The tep handles only matter through the classification outcomes that
are passed explicitly to the functions below. -/
structure PluginNapsContext where
  collected_events : Option (List DataFieldInt64)
  sswitch_event_id : Int
  waking_event_id : Int
deriving DecidableEq, Repr

/-- The `NapConfig` singleton's data fields (NapConfig.hpp/NapConfig.cpp). -/
structure NapConfig where
  _histo_entries_limit : Int
  _use_task_coloring : Bool
deriving DecidableEq, Repr

/-- Default-constructed `NapConfig` (field initializers in NapConfig.hpp). -/
def NapConfig.initial : NapConfig := { _histo_entries_limit := 10000, _use_task_coloring := false }

/-! ## Event classifier (naps.c) -/

/-- `waking_evt_tep_processing` (naps.c).  `pidField` models the outcome of
`tep_read_number_field` on the record's "pid" field: `some val` when the
call returns 0 with value `val`, `none` on failure.  Returns the (possibly
mutated) entry together with the record appended to `collected_events`.
On success the entry's pid is overwritten with the (int32-cast) value and
the plugin-untouched visibility bit is cleared; on failure the entry is
left untouched and the sentinel -1 is appended. -/
def waking_evt_tep_processing (pidField : Option Nat) (entry : KsharkEntry) :
    KsharkEntry × DataFieldInt64 :=
  match pidField with
  | some val =>
      let entry' : KsharkEntry :=
        { entry with
          pid := toInt32 val
          visible := entry.visible &&& (65535 ^^^ KS_PLUGIN_UNTOUCHED_MASK) }
      (entry', { entry := some entry', field := toInt64 val })
  | none => (entry, { entry := some entry, field := -1 })

/-- `_select_events` (naps.c).  `nr_ctx` is the result of `__get_context`
(None models a missing registration), `couplebreak_on` the stream flag and
`pidField` the tep extraction outcome used in the direct-mode waking branch.
Returns the (possibly mutated) entry and the list of records appended to
the collector by this call (empty or a singleton). -/
def _select_events (nr_ctx : Option PluginNapsContext) (couplebreak_on : Bool)
    (pidField : Option Nat) (entry : KsharkEntry) :
    KsharkEntry × List DataFieldInt64 :=
  match nr_ctx with
  | none => (entry, [])
  | some ctx =>
    match ctx.collected_events with
    | none => (entry, [])
    | some _ =>
      if entry.event_id = ctx.sswitch_event_id then
        (entry, [{ entry := some entry, field := -1 }])
      else if entry.event_id = ctx.waking_event_id then
        if couplebreak_on then
          (entry, [{ entry := some entry, field := entry.pid }])
        else
          let out := waking_evt_tep_processing pidField entry
          (out.1, [out.2])
      else
        (entry, [])

/-! ## Renderer color rules (Naps.cpp) -/

/-- The `WHITE` constant of `_black_or_white_text`. -/
def WHITE : Color := { r := 255, g := 255, b := 255 }

/-- The `BLACK` constant of `_black_or_white_text`. -/
def BLACK : Color := { r := 0, g := 0, b := 0 }

/-- `_get_task_color` (Naps.cpp).  `pid_color_table` models the host's
per-task color table (`getPidColors`).  The fail-safe `DEFAULT_COLOR` is
written in the source as `{(uint8_t)256, (uint8_t)256, (uint8_t)256}`;
the uint8 cast truncates 256 to 0, so the compiled fallback is (0,0,0). -/
def _get_task_color (pid_color_table : Int → Option Color) (pid : Int) : Color :=
  let DEFAULT_COLOR : Color :=
    { r := uint8_trunc 256, g := uint8_trunc 256, b := uint8_trunc 256 }
  match pid_color_table pid with
  | some c => c
  | none => DEFAULT_COLOR

/-- `_get_color_intensity` (Naps.cpp): `(b*0.114f)+(g*0.587f)+(r*0.299f)`.
The source computes in 32-bit floats over byte-valued components; the
float result decides the 128-threshold comparison identically to the exact
value, so the arithmetic is embedded over the rationals. -/
def _get_color_intensity (c : Color) : ℚ :=
  (c.b : ℚ) * (114 / 1000) + (c.g : ℚ) * (587 / 1000) + (c.r : ℚ) * (299 / 1000)

/-- `_black_or_white_text` (Naps.cpp): black above intensity 128, white
otherwise (the comparison is strict). -/
def _black_or_white_text (bg_color_intensity : ℚ) : Color :=
  if bg_color_intensity > 128 then BLACK else WHITE

/-- Outline-color selection step of `_make_nap_rect` (Naps.cpp lines
210-216): the outline equals the fill color unless task coloring is
enabled, in which case `_get_task_color` is consulted for the switch
entry's pid. -/
def make_nap_rect_outline (use_task_coloring : Bool)
    (pid_color_table : Int → Option Color) (fill : Color) (pid : Int) : Color :=
  if use_task_coloring then _get_task_color pid_color_table pid else fill

/-! ## Sleep-state resolution (NapRectangle.cpp) -/

/-- The marker string " ==>" searched for by `get_switch_prev_state`. -/
def SWITCH_MARKER : List Char := [' ', '=', '=', '>']

/-- `std::string::npos`, the value of `size_t(-1)`. -/
def NPOS : Nat := 2 ^ 64 - 1

/-- Whether `pat` matches at the head of `l` (prefix test used by the
substring search below). -/
def listLeadsWith : List Char → List Char → Bool
  | [], _ => true
  | _ :: _, [] => false
  | p :: ps, c :: cs => (p == c) && listLeadsWith ps cs

/-- Search for the first occurrence of `pat` in the remaining haystack,
with `i` the index of the haystack head in the original string. -/
def string_find_aux (pat : List Char) : List Char → Nat → Option Nat
  | [], i => if listLeadsWith pat [] then some i else none
  | c :: rest, i =>
      if listLeadsWith pat (c :: rest) then some i
      else string_find_aux pat rest (i + 1)

/-- `std::string::find`: the first index of an occurrence, or `NPOS` when
the pattern does not occur. -/
def string_find (hay pat : List Char) : Nat :=
  match string_find_aux pat hay 0 with
  | some i => i
  | none => NPOS

/-- Result of sleep-state resolution: either a character, or the
`std::out_of_range` fault thrown by `substr` when its position argument
exceeds the string size. -/
inductive PrevState where
  | ok (c : Char)
  | out_of_range_fault
deriving DecidableEq, Repr

/-- `get_switch_prev_state` (NapRectangle.cpp): locate " ==>" in the info
payload, then read `substr(start - 1, 1)[0]`.  `start - 1` is `size_t`
arithmetic (wrapping mod 2^64); `substr` throws `std::out_of_range` when
the position exceeds the string size, returns the empty string at
position = size (whose `operator[](0)` reads the null terminator), and
otherwise yields the character at the position. -/
def get_switch_prev_state (info : List Char) : PrevState :=
  let start := string_find info SWITCH_MARKER
  let pos := (start + NPOS) % 2 ^ 64
  if pos > info.length then PrevState.out_of_range_fault
  else if pos = info.length then PrevState.ok (Char.ofNat 0)
  else PrevState.ok (info.getD pos (Char.ofNat 0))

/-! ## Interval matcher -/

/-- First index `i` with `start ≤ i < n` satisfying `p`, if any (the forward
scan step of the interval-pairing algorithm). -/
def findIdx (p : Nat → Bool) (n start : Nat) : Option Nat :=
  (List.range' start (n - start)).find? p

/-- Modelled from the spec: the recursion of the host's interval-pairing scan
(`eventFieldIntervalPlot`, provided by KernelShark's `KsPlugins` and not part
of this repository's sources).  Per the spec: scan the collector in order,
find the first switch-candidate, then scanning forward strictly after it the
first waking-candidate; this forms one pair, and the scan continues strictly
after the consumed pair, never reusing either endpoint.  `fuel` bounds the
recursion by the container size. -/
def findNapsAux (S W : Nat → Bool) (n : Nat) : Nat → Nat → List (Nat × Nat)
  | _, 0 => []
  | start, fuel + 1 =>
    match findIdx S n start with
    | none => []
    | some i =>
      match findIdx W n (i + 1) with
      | none => []
      | some j => (i, j) :: findNapsAux S W n (j + 1) fuel

/-- Modelled from the spec: the interval-pairing scan over a container of `n`
records, given the switch-candidate and waking-candidate predicates on
indices.  Emits the list of (switch index, waking index) pairs. -/
def findNaps (S W : Nat → Bool) (n : Nat) : List (Nat × Nat) :=
  findNapsAux S W n 0 n

/-- Lift a record predicate to an index predicate over the container
(out-of-range indices never qualify). -/
def checkAt (p : DataFieldInt64 → Bool) (data : List DataFieldInt64) (i : Nat) : Bool :=
  match data[i]? with
  | some r => p r
  | none => false

/-- `_nap_rect_check_function_general` (Naps.cpp): a null entry never
qualifies; otherwise both the event-filter and graph-filter visibility bits
must be set. -/
def _nap_rect_check_function_general (entry : Option KsharkEntry) : Bool :=
  match entry with
  | none => false
  | some e =>
    let is_visible_event := e.visible &&& KS_EVENT_VIEW_FILTER_MASK != 0
    let is_visible_graph := e.visible &&& KS_GRAPH_VIEW_FILTER_MASK != 0
    is_visible_event && is_visible_graph

/-- The `nap_rect_check_func_switch` lambda of `_draw_nap_rectangles`
(Naps.cpp): generally visible, event kind equal to the switch id, and owning
pid equal to the target value. -/
def nap_rect_check_func_switch (ctx : PluginNapsContext) (val : Int)
    (r : DataFieldInt64) : Bool :=
  match r.entry with
  | none => false
  | some e =>
    let is_switch := e.event_id == ctx.sswitch_event_id
    let correct_pid := e.pid == val
    _nap_rect_check_function_general (some e) && is_switch && correct_pid

/-- The `nap_rect_check_func_waking` lambda of `_draw_nap_rectangles`
(Naps.cpp): generally visible, event kind equal to the waking id, and
collected auxiliary field equal to the target value. -/
def nap_rect_check_func_waking (ctx : PluginNapsContext) (val : Int)
    (r : DataFieldInt64) : Bool :=
  match r.entry with
  | none => false
  | some e =>
    let is_waking := e.event_id == ctx.waking_event_id
    let correct_waking_pid := r.field == val
    _nap_rect_check_function_general (some e) && is_waking && correct_waking_pid

/-- `_draw_nap_rectangles` (Naps.cpp): instantiate the two check lambdas for
the target value and run the host's interval-pairing scan over the collected
container.  The result is the list of emitted (switch, waking) index pairs. -/
def _draw_nap_rectangles (ctx : PluginNapsContext) (val : Int)
    (data : List DataFieldInt64) : List (Nat × Nat) :=
  findNaps (checkAt (nap_rect_check_func_switch ctx val) data)
    (checkAt (nap_rect_check_func_waking ctx val) data) data.length

/-- `draw_nap_rectangles` (Naps.cpp): the C-callable wrapper.  It reads the
configuration, suppresses the frame when the draw action is not the task
draw or the histogram's total entry count exceeds the configured limit,
returns when the collected-events container is null, and otherwise runs
`_draw_nap_rectangles`. -/
def draw_nap_rectangles (ctx : PluginNapsContext) (config : NapConfig)
    (tot_count : Int) (val : Int) (draw_action : Int) : List (Nat × Nat) :=
  let HISTO_ENTRIES_LIMIT := config._histo_entries_limit
  let is_task_draw := draw_action == KSHARK_TASK_DRAW
  let is_too_many_bins := decide (tot_count > HISTO_ENTRIES_LIMIT)
  if !is_task_draw || is_too_many_bins then []
  else
    match ctx.collected_events with
    | none => []
    | some plugin_data => _draw_nap_rectangles ctx val plugin_data

/-! ## Plugin initialization (naps.c) -/

/-- Host-supplied outcomes consumed by the plugin's stream initializer:
whether the two font files were found, whether `__init` allocated a context,
whether the stream is a tep stream, the stream's couplebreak flag, and the
results of `kshark_find_event_id` for `sched/sched_switch` and
`sched/sched_waking` (negative when the event kind cannot be resolved). -/
structure InitEnv where
  font_file_found : Bool
  bold_font_found : Bool
  init_ok : Bool
  is_tep : Bool
  couplebreak_on : Bool
  switch_id : Int
  swaking_id : Int
deriving DecidableEq, Repr

/-- Observable outcome of the stream initializer: the returned value, the
event ids under which `_select_events` was registered, and whether the draw
handler was registered. -/
structure InitResult where
  retval : Int
  event_handlers : List Int
  draw_handler_registered : Bool
deriving DecidableEq, Repr

/-- The plugin's stream initializer (naps.c, the function defined under the
host's plot-plugin initializer macro).  Font lookup, context allocation and
the tep check each abort with 0 before any handler registration; afterwards
the event ids are resolved (couplebreak redirecting the waking id) and the
two event handlers and the draw handler are registered unconditionally, with
return value 1. -/
def naps_plugin_init (env : InitEnv) : InitResult :=
  if !(env.font_file_found && env.bold_font_found) then
    { retval := 0, event_handlers := [], draw_handler_registered := false }
  else if !env.init_ok then
    { retval := 0, event_handlers := [], draw_handler_registered := false }
  else if !env.is_tep then
    { retval := 0, event_handlers := [], draw_handler_registered := false }
  else
    let sswitch_event_id := env.switch_id
    let waking_event_id :=
      if env.couplebreak_on then COUPLEBREAK_SWT_ID else env.swaking_id
    { retval := 1
      event_handlers := [sswitch_event_id, waking_event_id]
      draw_handler_registered := true }

/-! ## Concrete fixtures used by witnesses -/

/-- A visible `sched/sched_switch` entry of task 5 (event id 1, both
visibility filter bits set). -/
def demoEntrySwitch : KsharkEntry :=
  { event_id := 1, pid := 5, visible := 6, info := [] }

/-- A visible waking entry (event id 2) whose collected auxiliary field will
be 5. -/
def demoEntryWaking : KsharkEntry :=
  { event_id := 2, pid := 99, visible := 6, info := [] }

/-- A two-record collected container: one switch candidate for task 5
followed by one waking candidate with auxiliary key 5. -/
def demoData : List DataFieldInt64 :=
  [{ entry := some demoEntrySwitch, field := -1 },
   { entry := some demoEntryWaking, field := 5 }]

/-- A context whose switch id is 1 and waking id is 2, holding `demoData`. -/
def demoCtx : PluginNapsContext :=
  { collected_events := some demoData, sswitch_event_id := 1, waking_event_id := 2 }

/-- A configuration with a histogram limit of 2. -/
def demoConfigSmall : NapConfig :=
  { _histo_entries_limit := 2, _use_task_coloring := false }

/-- A direct-mode waking entry: its own pid (7) is the waker, the woken task
id 5 comes from tep field extraction. -/
def demoWakerDirect : KsharkEntry :=
  { event_id := 2, pid := 7, visible := 6, info := [] }

/-- The equivalent coupled-mode waking entry: its pid is already the woken
task id 5. -/
def demoWakerCoupled : KsharkEntry :=
  { event_id := 2, pid := 5, visible := 6, info := [] }

/-! ## Matcher lemmas -/

/-- Membership in a step-1 `List.range'` is the interval condition. -/
lemma mem_range1 {s n m : Nat} : m ∈ List.range' s n ↔ s ≤ m ∧ m < s + n := by
  rw [List.mem_range']
  constructor
  · rintro ⟨i, hi, rfl⟩; omega
  · rintro ⟨h1, h2⟩; exact ⟨m - s, by omega, by omega⟩

/-- A successful forward scan lands in range and satisfies the predicate. -/
lemma findIdx_eq_some {p : Nat → Bool} {n start i : Nat}
    (h : findIdx p n start = some i) : start ≤ i ∧ i < n ∧ p i = true := by
  unfold findIdx at h
  have hp := List.find?_some h
  have hm := List.mem_of_find?_eq_some h
  rw [mem_range1] at hm
  exact ⟨hm.1, by omega, hp⟩

/-- Every pair the scan emits has ordered in-range endpoints satisfying the
respective candidate predicates. -/
lemma findNapsAux_mem {S W : Nat → Bool} {n : Nat} :
    ∀ {fuel start i j}, (i, j) ∈ findNapsAux S W n start fuel →
      start ≤ i ∧ i < j ∧ j < n ∧ S i = true ∧ W j = true := by
  intro fuel
  induction fuel with
  | zero => intro start i j h; simp [findNapsAux] at h
  | succ fuel ih =>
    intro start i j h
    rw [findNapsAux] at h
    split at h
    · simp at h
    next i0 hS =>
      split at h
      · simp at h
      next j0 hW =>
        obtain hs := findIdx_eq_some hS
        obtain hw := findIdx_eq_some hW
        rcases List.mem_cons.mp h with hpair | htail
        · obtain ⟨rfl, rfl⟩ : i = i0 ∧ j = j0 := by simpa using hpair
          exact ⟨hs.1, by omega, hw.2.1, hs.2.2, hw.2.2⟩
        · have ht := ih htail
          exact ⟨by omega, ht.2.1, ht.2.2.1, ht.2.2.2.1, ht.2.2.2.2⟩

/-- A range'-interval with a known satisfying element has positive count. -/
lemma countP_range1_ge_one {p : Nat → Bool} {s n j : Nat}
    (hj1 : s ≤ j) (hj2 : j < s + n) (hp : p j = true) :
    1 ≤ (List.range' s n).countP p := by
  have hmem : ∃ a ∈ List.range' s n, p a := ⟨j, mem_range1.mpr ⟨hj1, hj2⟩, hp⟩
  have := List.countP_pos_iff.mpr hmem
  omega

/-- Splitting a scan interval at a consumed index. -/
lemma range1_split {start j0 n : Nat} (h1 : start ≤ j0) (h2 : j0 < n) :
    List.range' start (n - start)
      = List.range' start (j0 + 1 - start) ++ List.range' (j0 + 1) (n - (j0 + 1)) := by
  have h := List.range'_append_1 start (j0 + 1 - start) (n - (j0 + 1))
  rw [show start + (j0 + 1 - start) = j0 + 1 by omega] at h
  rw [show n - (j0 + 1) + (j0 + 1 - start) = n - start by omega] at h
  exact h.symm

/-- Each emitted pair consumes a fresh waking candidate, so the number of
pairs is bounded by the number of waking candidates in the scan range. -/
lemma findNapsAux_length_le_W {S W : Nat → Bool} {n : Nat} :
    ∀ (fuel start : Nat),
      (findNapsAux S W n start fuel).length
        ≤ (List.range' start (n - start)).countP W := by
  intro fuel
  induction fuel with
  | zero => intro start; simp [findNapsAux]
  | succ fuel ih =>
    intro start
    rw [findNapsAux]
    split
    · simp
    next i0 hS =>
      split
      · simp
      next j0 hW =>
        obtain hs := findIdx_eq_some hS
        obtain hw := findIdx_eq_some hW
        simp only [List.length_cons]
        rw [range1_split (show start ≤ j0 by omega) hw.2.1, List.countP_append]
        have h1 : 1 ≤ (List.range' start (j0 + 1 - start)).countP W :=
          countP_range1_ge_one (show start ≤ j0 by omega) (by omega) hw.2.2
        have h2 := ih (j0 + 1)
        omega

/-- Each emitted pair consumes a fresh switch candidate, so the number of
pairs is bounded by the number of switch candidates in the scan range. -/
lemma findNapsAux_length_le_S {S W : Nat → Bool} {n : Nat} :
    ∀ (fuel start : Nat),
      (findNapsAux S W n start fuel).length
        ≤ (List.range' start (n - start)).countP S := by
  intro fuel
  induction fuel with
  | zero => intro start; simp [findNapsAux]
  | succ fuel ih =>
    intro start
    rw [findNapsAux]
    split
    · simp
    next i0 hS =>
      split
      · simp
      next j0 hW =>
        obtain hs := findIdx_eq_some hS
        obtain hw := findIdx_eq_some hW
        simp only [List.length_cons]
        rw [range1_split (show start ≤ j0 by omega) hw.2.1, List.countP_append]
        have h1 : 1 ≤ (List.range' start (j0 + 1 - start)).countP S :=
          countP_range1_ge_one hs.1 (by omega) hs.2.2
        have h2 := ih (j0 + 1)
        omega

/-- Emitted pairs are strictly ordered: each pair ends strictly before the
next pair begins, so no endpoint is ever reused. -/
lemma findNapsAux_pairwise {S W : Nat → Bool} {n : Nat} :
    ∀ (fuel start : Nat),
      (findNapsAux S W n start fuel).Pairwise (fun p q => p.2 < q.1) := by
  intro fuel
  induction fuel with
  | zero => intro start; simp [findNapsAux]
  | succ fuel ih =>
    intro start
    rw [findNapsAux]
    split
    · simp
    next i0 hS =>
      split
      · simp
      next j0 hW =>
        refine List.Pairwise.cons ?_ (ih (j0 + 1))
        intro q hq
        obtain ⟨qi, qj⟩ := q
        have hmem := findNapsAux_mem hq
        show j0 < qi
        omega

/-- Specialization of `findNapsAux_mem` to a full scan. -/
lemma findNaps_mem {S W : Nat → Bool} {n i j : Nat}
    (h : (i, j) ∈ findNaps S W n) :
    i < j ∧ j < n ∧ S i = true ∧ W j = true := by
  have hm := findNapsAux_mem (S := S) (W := W) h
  exact ⟨hm.2.1, hm.2.2.1, hm.2.2.2.1, hm.2.2.2.2⟩

/-- The pair count of a full scan is bounded by the candidate counts. -/
lemma findNaps_length_le (S W : Nat → Bool) (n : Nat) :
    (findNaps S W n).length ≤ min ((List.range n).countP S) ((List.range n).countP W) := by
  have hW := findNapsAux_length_le_W (S := S) (W := W) (n := n) n 0
  have hS := findNapsAux_length_le_S (S := S) (W := W) (n := n) n 0
  rw [List.range_eq_range']
  simp only [Nat.sub_zero] at hS hW
  unfold findNaps
  omega

/-- Full-scan version of the pairwise-ordering lemma. -/
lemma findNaps_pairwise (S W : Nat → Bool) (n : Nat) :
    List.Pairwise (fun p q => p.2 < q.1) (findNaps S W n) :=
  findNapsAux_pairwise n 0

/-- In every emitted pair the switch index strictly precedes the waking
index. -/
lemma findNaps_all_lt (S W : Nat → Bool) (n : Nat) :
    (findNaps S W n).all (fun p => decide (p.1 < p.2)) = true := by
  rw [List.all_eq_true]
  intro p hp
  obtain ⟨i, j⟩ := p
  have h := findNaps_mem hp
  simpa using h.1

/-- Clearing the plugin-untouched visibility bit does not change the general
visibility check, which reads only the event-filter and graph-filter bits. -/
lemma general_check_untouched (e : KsharkEntry) (p' : Int) :
    _nap_rect_check_function_general
        (some { e with
                pid := p'
                visible := e.visible &&& (65535 ^^^ KS_PLUGIN_UNTOUCHED_MASK) })
      = _nap_rect_check_function_general (some e) := by
  have hm : (65535 ^^^ KS_PLUGIN_UNTOUCHED_MASK) = 65407 := by decide
  have h1 : ∀ v : Nat,
      (v &&& 65407) &&& KS_EVENT_VIEW_FILTER_MASK = v &&& KS_EVENT_VIEW_FILTER_MASK := by
    intro v
    have hc : (65407 &&& KS_EVENT_VIEW_FILTER_MASK) = KS_EVENT_VIEW_FILTER_MASK := by decide
    rw [Nat.land_assoc, hc]
  have h2 : ∀ v : Nat,
      (v &&& 65407) &&& KS_GRAPH_VIEW_FILTER_MASK = v &&& KS_GRAPH_VIEW_FILTER_MASK := by
    intro v
    have hc : (65407 &&& KS_GRAPH_VIEW_FILTER_MASK) = KS_GRAPH_VIEW_FILTER_MASK := by decide
    rw [Nat.land_assoc, hc]
  simp [_nap_rect_check_function_general, hm, h1, h2]

/-- The general visibility check depends only on the visibility bitmask. -/
lemma general_check_visible_only (a b : KsharkEntry) (h : a.visible = b.visible) :
    _nap_rect_check_function_general (some a) = _nap_rect_check_function_general (some b) := by
  simp [_nap_rect_check_function_general, h]

/-! ## Claims -/

/-- C1: for every render pass, the interval matching invoked by
`_draw_nap_rectangles` over a collected container with N switch-candidate
indices and M waking-candidate indices emits at most min(N, M) pairs; the
emitted pairs are strictly ordered (each pair ends strictly before the next
begins) and within each pair the switch index strictly precedes the waking
index, so no record reference appears in more than one emitted interval and
no waking record consumed by one pairing is reused by another in the same
pass. -/
theorem naps_C1_at_most_one_pairing (ctx : PluginNapsContext) (val : Int)
    (data : List DataFieldInt64) :
    (_draw_nap_rectangles ctx val data).length
      ≤ min ((List.range data.length).countP
              (checkAt (nap_rect_check_func_switch ctx val) data))
            ((List.range data.length).countP
              (checkAt (nap_rect_check_func_waking ctx val) data))
    ∧ List.Pairwise (fun p q => p.2 < q.1) (_draw_nap_rectangles ctx val data)
    ∧ (_draw_nap_rectangles ctx val data).all (fun p => decide (p.1 < p.2)) = true :=
  ⟨findNaps_length_le _ _ _, findNaps_pairwise _ _ _, findNaps_all_lt _ _ _⟩

/-- C5: every pair emitted by `_draw_nap_rectangles` for target value `val`
pairs a switch record whose entry belongs to task `val` (and carries the
switch event id) with a waking record whose collected auxiliary field equals
the same `val` (and whose entry carries the waking event id): a waking
record with auxiliary key K only ever pairs with a switch record selected
for target task id K. -/
theorem naps_C5_key_correctness (ctx : PluginNapsContext) (val : Int)
    (data : List DataFieldInt64) (p : Nat × Nat)
    (hp : p ∈ _draw_nap_rectangles ctx val data) :
    (∃ rs es, data[p.1]? = some rs ∧ rs.entry = some es ∧
        es.event_id = ctx.sswitch_event_id ∧ es.pid = val)
    ∧ (∃ rk ek, data[p.2]? = some rk ∧ rk.entry = some ek ∧
        ek.event_id = ctx.waking_event_id ∧ rk.field = val) := by
  obtain ⟨i, j⟩ := p
  unfold _draw_nap_rectangles at hp
  have h := findNaps_mem hp
  have hSi : checkAt (nap_rect_check_func_switch ctx val) data i = true := h.2.2.1
  have hWj : checkAt (nap_rect_check_func_waking ctx val) data j = true := h.2.2.2
  constructor
  · unfold checkAt at hSi
    split at hSi
    next rs hri =>
      unfold nap_rect_check_func_switch at hSi
      split at hSi
      next hre => simp at hSi
      next es hre =>
        simp only [Bool.and_eq_true, beq_iff_eq] at hSi
        exact ⟨rs, es, hri, hre, hSi.1.2, hSi.2⟩
    next => simp at hSi
  · unfold checkAt at hWj
    split at hWj
    next rk hrj =>
      unfold nap_rect_check_func_waking at hWj
      split at hWj
      next hre => simp at hWj
      next ek hre =>
        simp only [Bool.and_eq_true, beq_iff_eq] at hWj
        exact ⟨rk, ek, hrj, hre, hWj.1.2, hWj.2⟩
    next => simp at hWj

/-- Witness for C5: on the two-record demo container with target 5, the scan
emits the pair (0, 1), whose endpoints carry pid 5 and auxiliary key 5. -/
theorem naps_C5_witness :
    (∃ rs es, demoData[(0 : Nat)]? = some rs ∧ rs.entry = some es ∧
        es.event_id = demoCtx.sswitch_event_id ∧ es.pid = 5)
    ∧ (∃ rk ek, demoData[(1 : Nat)]? = some rk ∧ rk.entry = some ek ∧
        ek.event_id = demoCtx.waking_event_id ∧ rk.field = 5) :=
  naps_C5_key_correctness demoCtx 5 demoData (0, 1) (by decide)

/-- C3: the redraw wrapper `draw_nap_rectangles` suppresses the frame
entirely — emitting no interval and running no matching — whenever the draw
action is not the task-draw action or the histogram's total entry count
exceeds the configured `histogram_entry_limit`, regardless of valid pairs
present in the container. -/
theorem naps_C3_gate (ctx : PluginNapsContext) (config : NapConfig)
    (tot_count val draw_action : Int)
    (h : draw_action ≠ KSHARK_TASK_DRAW ∨ config._histo_entries_limit < tot_count) :
    draw_nap_rectangles ctx config tot_count val draw_action = [] := by
  unfold draw_nap_rectangles
  rcases h with h | h
  · have h1 : (draw_action == KSHARK_TASK_DRAW) = false := by simp [h]
    simp [h1]
  · have h2 : decide (tot_count > config._histo_entries_limit) = true := by simp [h]
    simp [h2]

/-- Witness for C3: with a limit of 2, a frame with 3 total entries emits
nothing even though the demo container holds a valid pair for target 5. -/
theorem naps_C3_witness :
    draw_nap_rectangles demoCtx demoConfigSmall 3 5 KSHARK_TASK_DRAW = [] :=
  naps_C3_gate demoCtx demoConfigSmall 3 5 KSHARK_TASK_DRAW (Or.inr (by decide))

/-- C4: when "pid"-field extraction fails for a waking record, the record is
still appended with the sentinel auxiliary value -1 and the entry is not
mutated; and for any non-negative target id, a record whose auxiliary field
is -1 never satisfies the waking-candidate predicate, so it can never be
matched. -/
theorem naps_C4_extraction_failure_sentinel (ctx : PluginNapsContext)
    (e : KsharkEntry) (val : Int) (r : DataFieldInt64)
    (hval : 0 ≤ val) (hr : r.field = -1) :
    (waking_evt_tep_processing none e).1 = e
    ∧ (waking_evt_tep_processing none e).2 = { entry := some e, field := -1 }
    ∧ nap_rect_check_func_waking ctx val r = false := by
  refine ⟨rfl, rfl, ?_⟩
  unfold nap_rect_check_func_waking
  split
  · rfl
  next e' heq =>
    have hne : (r.field == val) = false := by
      rw [hr]
      simp only [beq_eq_false_iff_ne, ne_eq]
      omega
    simp [hne]

/-- Witness for C4: a failed extraction on the demo waking entry appends the
sentinel record untouched, and a record with field -1 fails the
waking-candidate predicate for target 0. -/
theorem naps_C4_witness :
    (waking_evt_tep_processing none demoEntryWaking).1 = demoEntryWaking
    ∧ (waking_evt_tep_processing none demoEntryWaking).2
        = { entry := some demoEntryWaking, field := -1 }
    ∧ nap_rect_check_func_waking demoCtx 0
        { entry := some demoEntryWaking, field := -1 } = false :=
  naps_C4_extraction_failure_sentinel demoCtx demoEntryWaking 0
    { entry := some demoEntryWaking, field := -1 } (by decide) (by decide)

/-- C10: when no plugin context is registered for the stream, or the
registered context holds a null collected-events container, the
classification callback `_select_events` appends nothing and leaves the
entry unchanged. -/
theorem naps_C10_missing_context (cb : Bool) (pf : Option Nat)
    (e : KsharkEntry) (ctx : PluginNapsContext)
    (h : ctx.collected_events = none) :
    _select_events none cb pf e = (e, [])
    ∧ _select_events (some ctx) cb pf e = (e, []) := by
  refine ⟨rfl, ?_⟩
  simp only [_select_events]
  rw [h]

/-- Witness for C10: both degenerate contexts leave the demo switch entry
untouched and append nothing. -/
theorem naps_C10_witness :
    _select_events none false none demoEntrySwitch = (demoEntrySwitch, [])
    ∧ _select_events
        (some { collected_events := none, sswitch_event_id := 1, waking_event_id := 2 })
        false none demoEntrySwitch = (demoEntrySwitch, []) :=
  naps_C10_missing_context false none demoEntrySwitch
    { collected_events := none, sswitch_event_id := 1, waking_event_id := 2 } rfl

/-- C2 counterexample: with both fonts found, a successfully allocated
context and a tep stream, but with neither the switch nor the waking event
kind resolvable (`kshark_find_event_id` returns -1), the initializer still
returns 1 and registers both event handlers (under the unresolved id -1)
and the draw handler — contradicting the claim that unresolvable event-kind
ids make initialization fail with no handler registered. -/
theorem naps_C2_counterexample :
    (naps_plugin_init
        { font_file_found := true, bold_font_found := true, init_ok := true,
          is_tep := true, couplebreak_on := false, switch_id := -1,
          swaking_id := -1 }).retval = 1
    ∧ (naps_plugin_init
        { font_file_found := true, bold_font_found := true, init_ok := true,
          is_tep := true, couplebreak_on := false, switch_id := -1,
          swaking_id := -1 }).event_handlers = [-1, -1]
    ∧ (naps_plugin_init
        { font_file_found := true, bold_font_found := true, init_ok := true,
          is_tep := true, couplebreak_on := false, switch_id := -1,
          swaking_id := -1 }).draw_handler_registered = true :=
  ⟨rfl, rfl, rfl⟩

/-- C2 (amended): the initializer returns 0 exactly when a font file cannot
be found, the context allocation fails, or the stream is not a tep stream;
in every failing case no event or draw handler is left registered.
Unresolvable event-kind ids do not cause failure: the returned value is
unchanged when both ids are replaced by the unresolved sentinel -1 (the
handlers are then registered under the unresolved ids). -/
theorem naps_C2_amended (env : InitEnv) :
    ((naps_plugin_init env).retval = 0
        ↔ (env.font_file_found && env.bold_font_found && env.init_ok && env.is_tep)
            = false)
    ∧ ((naps_plugin_init env).retval = 0
        ↔ (naps_plugin_init env).event_handlers = []
            ∧ (naps_plugin_init env).draw_handler_registered = false)
    ∧ (naps_plugin_init { env with switch_id := -1, swaking_id := -1 }).retval
        = (naps_plugin_init env).retval := by
  rcases env with ⟨f1, f2, io, tep, cb, sid, wid⟩
  cases f1 <;> cases f2 <;> cases io <;> cases tep <;>
    simp [naps_plugin_init]

/-- C6: a direct-mode waking record whose "pid" field extraction resolves 5
and the equivalent coupled-mode record whose entry task id is already 5 are
classified into records with the same auxiliary key 5, and the
waking-candidate predicate for target id 5 evaluates identically on both
collected records, so subsequent matching produces the same outcome. -/
theorem naps_C6_coupled_direct_equivalence (ctx : PluginNapsContext)
    (e_d e_c : KsharkEntry)
    (hev_d : e_d.event_id = ctx.waking_event_id)
    (hev_c : e_c.event_id = ctx.waking_event_id)
    (hsw_d : e_d.event_id ≠ ctx.sswitch_event_id)
    (hsw_c : e_c.event_id ≠ ctx.sswitch_event_id)
    (hpid_c : e_c.pid = 5)
    (hvis : e_c.visible = e_d.visible)
    (store : List DataFieldInt64)
    (hstore : ctx.collected_events = some store) :
    ∃ rd rc,
      (_select_events (some ctx) false (some 5) e_d).2 = [rd]
      ∧ (_select_events (some ctx) true none e_c).2 = [rc]
      ∧ rd.field = 5 ∧ rc.field = 5
      ∧ nap_rect_check_func_waking ctx 5 rd = nap_rect_check_func_waking ctx 5 rc := by
  refine ⟨{ entry := some { e_d with
                            pid := toInt32 5
                            visible := e_d.visible &&&
                              (65535 ^^^ KS_PLUGIN_UNTOUCHED_MASK) },
            field := toInt64 5 },
          { entry := some e_c, field := e_c.pid }, ?_, ?_, ?_, ?_, ?_⟩
  · simp only [_select_events, hstore]
    rw [if_neg hsw_d, if_pos hev_d]
    simp [waking_evt_tep_processing]
  · simp only [_select_events, hstore]
    rw [if_neg hsw_c, if_pos hev_c]
    simp
  · show toInt64 5 = (5 : Int)
    decide
  · exact hpid_c
  · have g1 := general_check_untouched e_d (toInt32 5)
    have g2 := general_check_visible_only e_c e_d hvis
    have hf : (toInt64 5 == (5 : Int)) = true := by decide
    have hL : nap_rect_check_func_waking ctx 5
        { entry := some { e_d with
                          pid := toInt32 5
                          visible := e_d.visible &&&
                            (65535 ^^^ KS_PLUGIN_UNTOUCHED_MASK) },
          field := toInt64 5 } = _nap_rect_check_function_general (some e_d) := by
      simp only [nap_rect_check_func_waking]
      rw [g1]
      simp [hev_d, hf]
    have hR : nap_rect_check_func_waking ctx 5 { entry := some e_c, field := e_c.pid }
        = _nap_rect_check_function_general (some e_d) := by
      simp only [nap_rect_check_func_waking]
      rw [g2]
      simp [hev_c, hpid_c]
    rw [hL, hR]

/-- Witness for C6: the concrete direct-mode waker (pid 7, woken id 5 via
extraction) and coupled-mode waker (pid already 5) produce records with key
5 and identical matching outcomes for target 5. -/
theorem naps_C6_witness :
    ∃ rd rc,
      (_select_events (some demoCtx) false (some 5) demoWakerDirect).2 = [rd]
      ∧ (_select_events (some demoCtx) true none demoWakerCoupled).2 = [rc]
      ∧ rd.field = 5 ∧ rc.field = 5
      ∧ nap_rect_check_func_waking demoCtx 5 rd
          = nap_rect_check_func_waking demoCtx 5 rc :=
  naps_C6_coupled_direct_equivalence demoCtx demoWakerDirect demoWakerCoupled
    rfl rfl (by decide) (by decide) rfl rfl demoData rfl

/-- C7 counterexample: on an info payload without the " ==>" marker,
`get_switch_prev_state` does not fall back silently — `find` returns npos
and `substr(npos - 1, 1)` raises the out-of-range fault. -/
theorem naps_C7_counterexample :
    get_switch_prev_state ['a', 'b', 'c'] = PrevState.out_of_range_fault := by
  decide

/-- C7 (amended): if the switch entry's info payload does not contain the
substring " ==>", sleep-state resolution raises an out-of-range fault (the
`size_t` position npos - 1 exceeds any real string's length), rather than
falling back silently with no state text. -/
theorem naps_C7_amended (info : List Char)
    (hfind : string_find info SWITCH_MARKER = NPOS)
    (hlen : info.length < 2 ^ 64 - 2) :
    get_switch_prev_state info = PrevState.out_of_range_fault := by
  have hpos : (NPOS + NPOS) % 2 ^ 64 = 2 ^ 64 - 2 := by decide
  simp only [get_switch_prev_state]
  rw [hfind, hpos, if_pos (by omega : (2 : Nat) ^ 64 - 2 > info.length)]

/-- Witness for C7 (amended): the marker-free payload "prev" faults. -/
theorem naps_C7_witness :
    get_switch_prev_state ['p', 'r', 'e', 'v'] = PrevState.out_of_range_fault :=
  naps_C7_amended ['p', 'r', 'e', 'v'] (by decide) (by decide)

/-- C8: when task coloring is disabled the outline color equals the fill
color; but when task coloring is enabled and the host's per-task color
table has no entry for the task id, the fallback color is NOT the full
white sentinel the code's comment intends: the source writes each
component as `(uint8_t)256`, which truncates to 0, so the compiled
fallback is full black (0,0,0), indistinguishable from a legitimate black
and unequal to white. -/
theorem naps_C8_task_color_fallback :
    _get_task_color (fun _ => none) 42 = BLACK
    ∧ BLACK ≠ WHITE
    ∧ (∀ (fill : Color) (tbl : Int → Option Color) (pid : Int),
        make_nap_rect_outline false tbl fill pid = fill)
    ∧ (∀ fill : Color, make_nap_rect_outline true (fun _ => none) fill 42 = BLACK) :=
  ⟨rfl, by decide, fun _ _ _ => rfl, fun _ => rfl⟩

/-- C9: for every fill color the text color is black exactly when the
luminance 0.299 R + 0.587 G + 0.114 B exceeds 128 and white otherwise; in
particular luminance exactly 128 (e.g. RGB (8,200,72)) yields white, 129
(e.g. (9,201,73)) yields black, and 0 yields white. -/
theorem naps_C9_contrast_law :
    (∀ c : Color,
      (_black_or_white_text (_get_color_intensity c) = BLACK
          ↔ 128 < _get_color_intensity c)
      ∧ (_black_or_white_text (_get_color_intensity c) = WHITE
          ↔ ¬ 128 < _get_color_intensity c))
    ∧ _get_color_intensity { r := 8, g := 200, b := 72 } = 128
    ∧ _black_or_white_text (_get_color_intensity { r := 8, g := 200, b := 72 }) = WHITE
    ∧ _get_color_intensity { r := 9, g := 201, b := 73 } = 129
    ∧ _black_or_white_text (_get_color_intensity { r := 9, g := 201, b := 73 }) = BLACK
    ∧ _get_color_intensity { r := 0, g := 0, b := 0 } = 0
    ∧ _black_or_white_text (_get_color_intensity { r := 0, g := 0, b := 0 }) = WHITE := by
  have h128 : _get_color_intensity { r := 8, g := 200, b := 72 } = 128 := by
    norm_num [_get_color_intensity]
  have h129 : _get_color_intensity { r := 9, g := 201, b := 73 } = 129 := by
    norm_num [_get_color_intensity]
  have h0 : _get_color_intensity { r := 0, g := 0, b := 0 } = 0 := by
    norm_num [_get_color_intensity]
  refine ⟨?_, h128, ?_, h129, ?_, h0, ?_⟩
  · intro c
    by_cases h : 128 < _get_color_intensity c
    · simp [_black_or_white_text, h, BLACK, WHITE]
    · simp [_black_or_white_text, h, BLACK, WHITE]
  · rw [h128]
    norm_num [_black_or_white_text]
  · rw [h129]
    norm_num [_black_or_white_text]
  · rw [h0]
    norm_num [_black_or_white_text]

end Naps
